import Mathlib

/-!
Verification development for the `depthai_bridge` generic pipeline publisher
(`GenericPipelinePublisher.hpp` / `GenericPipelinePublisher.cpp`).

The C++ code is shallowly embedded: pipeline nodes become a record type with a
runtime-kind tag (dynamic down-casts become kind tests), `std::map` lookups
with `operator[]` become total functions defaulting to the empty string, the
ROS/device side effects (publisher creation, queue sends, logged warnings)
become values accumulated in result records, and the C++ `double` fields that
flow through the bounding-box callbacks become exact rationals (none of the
verified claims depend on rounding).
-/

set_option autoImplicit false

namespace DepthaiBridge

/-- Camera board sockets used by the source (`dai::CameraBoardSocket`).
Numeric values follow the SDK enum: AUTO = -1, RGB = 0, LEFT = 1, RIGHT = 2,
CAM_D = 3, ... -/
inductive CameraBoardSocket where
  | AUTO | RGB | LEFT | RIGHT | CAM_D | CAM_E | CAM_F | CAM_G | CAM_H
  deriving DecidableEq, Repr

/-- `(int)socket` in the C++ source. -/
def socketVal : CameraBoardSocket → Int
  | .AUTO => -1
  | .RGB => 0
  | .LEFT => 1
  | .RIGHT => 2
  | .CAM_D => 3
  | .CAM_E => 4
  | .CAM_F => 5
  | .CAM_G => 6
  | .CAM_H => 7

/-- The frame-name table `std::map<CameraBoardSocket, std::string>` is modelled
as a total function; `operator[]` on a missing key default-constructs an empty
string, so the default value is `""`. -/
def FrameMap : Type := CameraBoardSocket → String

/-- `map[k] = v` (insert-or-overwrite on a `std::map`). -/
def mapSet (m : FrameMap) (k : CameraBoardSocket) (v : String) : FrameMap :=
  fun s => if s = k then v else m s

/-- The sockets visited by the loop `for(int i = (int)CameraBoardSocket::CAM_D; i < 8; i++)`. -/
def camLoopSockets : List CameraBoardSocket :=
  [.CAM_D, .CAM_E, .CAM_F, .CAM_G, .CAM_H]

/-- `default_frame_mapping()` from `GenericPipelinePublisher.cpp`: the loop
writes `"CAM_" + std::to_string(i + 'A')` for sockets 3..7 (note: the source
converts `i + 'A'` to a decimal string), then the three literal optical-frame
names are written for LEFT, RIGHT and RGB. -/
def default_frame_mapping : FrameMap :=
  let m0 : FrameMap := fun _ => ""
  let m1 := camLoopSockets.foldl
    (fun m s => mapSet m s ("CAM_" ++ toString (socketVal s + 65))) m0
  mapSet (mapSet (mapSet m1 .LEFT "left_camera_optical_frame")
    .RIGHT "right_camera_optical_frame") .RGB "rgb_camera_optical_frame"

/-- C9: the default frame-name table assigns the three documented literal
strings to the LEFT, RIGHT and RGB mount identifiers. -/
theorem default_frame_mapping_literals :
    default_frame_mapping CameraBoardSocket.LEFT = "left_camera_optical_frame" ∧
    default_frame_mapping CameraBoardSocket.RIGHT = "right_camera_optical_frame" ∧
    default_frame_mapping CameraBoardSocket.RGB = "rgb_camera_optical_frame" := by
  refine ⟨rfl, rfl, rfl⟩

/-- Runtime kind of a pipeline node; a `dynamic_pointer_cast<T>` succeeds
exactly when the node's kind equals `T` (the four dispatched classes are
unrelated leaf classes in the SDK). -/
inductive NodeKind where
  | ColorCamera | IMU | StereoDepth | MonoCamera | XLinkOut | XLinkIn | Other
  deriving DecidableEq, Repr

/-- A pipeline node, with the attributes the bridge reads from it.
Getter calls such as `getResolutionWidth()` or `getVideoWidth()` become field
reads; fields not meaningful for a given kind are simply unused. -/
structure DNode where
  id : Nat
  kind : NodeKind
  boardSocket : CameraBoardSocket := .AUTO
  depthAlignCamera : CameraBoardSocket := .AUTO
  resolutionWidth : Nat := 0
  resolutionHeight : Nat := 0
  videoWidth : Nat := 0
  videoHeight : Nat := 0
  stillWidth : Nat := 0
  stillHeight : Nat := 0
  previewWidth : Nat := 0
  previewHeight : Nat := 0
  ispWidth : Nat := 0
  ispHeight : Nat := 0
  streamName : String := ""
  deriving DecidableEq, Repr

/-- `dai::Node::Connection`: directed edge (producer `outputId`.`outputName`)
→ (consumer `inputId`.`inputName`). -/
structure Connection where
  outputId : Nat
  outputName : String
  inputId : Nat
  inputName : String
  deriving DecidableEq, Repr

/-- The pipeline: its nodes and the connection map returned by
`getConnectionMap()`, keyed by the consumer node's id. -/
structure Pipeline where
  nodes : List DNode
  connections : List (Nat × List Connection)
  deriving DecidableEq, Repr

/-- `pipeline.getNode(id)`; returns a null pointer (here `none`) when no node
has that id. -/
def getNode (p : Pipeline) (nid : Nat) : Option DNode :=
  p.nodes.find? (fun n => n.id = nid)

/-- `std::dynamic_pointer_cast<T>(n)`: null stays null, otherwise succeeds iff
the runtime kind matches. -/
def castK (k : NodeKind) (n : Option DNode) : Option DNode :=
  n.bind fun nd => if nd.kind = k then some nd else none

/-- `connections[nid]` on the connection map (`operator[]` yields the empty
list for an absent key). -/
def connectionsOf (p : Pipeline) (nid : Nat) : List Connection :=
  match p.connections.find? (fun e => e.1 = nid) with
  | some e => e.2
  | none => []

/-- Converters constructed by the handlers. The disparity converter records
the optical constants it is built with (`880, 7.5, 20, 2000` in the source;
the C++ `double` literals are represented exactly as rationals). -/
inductive ConverterKind where
  | image (frame : String)
  | disparity (frame : String) (focal baseline minRange maxRange : ℚ)
  | imu (frame : String)
  deriving DecidableEq, Repr

/-- A calibration record `calibrationToCameraInfo(_, socket, width, height)`. -/
structure CameraInfo where
  socket : CameraBoardSocket
  width : Nat
  height : Nat
  deriving DecidableEq, Repr

/-- One constructed `BridgePublisher`: its topic, converter, calibration
record (`none` for the IMU publisher, which passes a camera-param URI string
instead), the device queue it drains (named by the XLinkOut stream name) and
the name label passed as the last constructor argument. -/
structure Publisher where
  topic : String
  converter : ConverterKind
  calib : Option CameraInfo
  queueName : String
  label : String
  deriving DecidableEq, Repr

/-- Warnings logged by the excerpt (``ROS_WARN`` sites). -/
inductive Warn where
  | deviceRunning
  | couldNotGenerate
  | dontUnderstandStereo (name : String)
  | noInputSource (side : String)
  | dontUnderstandColor (name : String)
  deriving DecidableEq, Repr

/-- Construction-time context: the frame prefix and frame-name table held by
the `GenericPipelinePublisher` object. -/
structure Env where
  framePfx : String
  frameNames : FrameMap

/-- Result of one `mapKnownInputNodeType` overload call: its return value and
the publishers/warnings it produced. -/
structure HandlerResult where
  handled : Bool
  publishers : List Publisher
  warnings : List Warn
  deriving DecidableEq, Repr

/-- `stereo->properties.depthAlignCamera`, with the `AUTO → RIGHT` fallback
performed at the top of the StereoDepth overload. -/
def resolveAlignSocket (stereo : DNode) : CameraBoardSocket :=
  if stereo.depthAlignCamera = .AUTO then .RIGHT else stereo.depthAlignCamera

/-- The scan over the stereo node's inbound connections locating the mono
camera feeding a given side: for every connection whose `inputName` equals the
side, `monoNode` is overwritten with the (possibly failed) MonoCamera cast of
the producer node, so the final value comes from the last matching
connection. -/
def findMonoForSide (p : Pipeline) (stereoId : Nat) (side : String) : Option DNode :=
  (connectionsOf p stereoId).foldl
    (fun acc c => if c.inputName = side then castK .MonoCamera (getNode p c.outputId) else acc)
    none

/-- The StereoDepth overload of `mapKnownInputNodeType`. -/
def stereoHandler (env : Env) (p : Pipeline) (xo stereo : DNode) (inputName : String) :
    HandlerResult :=
  let alignSocket := resolveAlignSocket stereo
  let frame := env.frameNames alignSocket
  let depthCameraInfo : CameraInfo := ⟨alignSocket, 1280, 720⟩
  if inputName = "depth" then
    { handled := true,
      publishers := [{ topic := "stereo/depth",
                       converter := .image (env.framePfx ++ frame),
                       calib := some depthCameraInfo,
                       queueName := xo.streamName, label := "stereo" }],
      warnings := [] }
  else if inputName = "disparity" then
    { handled := true,
      publishers := [{ topic := "stereo/disparity",
                       converter := .disparity (env.framePfx ++ frame) 880 (15/2) 20 2000,
                       calib := some depthCameraInfo,
                       queueName := xo.streamName, label := "stereo" }],
      warnings := [] }
  else if inputName = "confidenceMap" then
    { handled := true,
      publishers := [{ topic := "stereo/confidenceMap",
                       converter := .image (env.framePfx ++ frame),
                       calib := some depthCameraInfo,
                       queueName := xo.streamName, label := "stereo" }],
      warnings := [] }
  else if inputName = "rectifiedLeft" ∨ inputName = "rectifiedRight" ∨
          inputName = "syncedRight" ∨ inputName = "syncedLeft" then
    let side := if inputName = "rectifiedLeft" ∨ inputName = "syncedLeft" then "left" else "right"
    let pubName := side ++ (if inputName = "rectifiedLeft" ∨ inputName = "rectifiedRight"
                            then "/image_rect" else "/image_raw")
    match findMonoForSide p stereo.id side with
    | none =>
      { handled := true, publishers := [], warnings := [.noInputSource side] }
    | some monoNode =>
      { handled := true,
        publishers := [{ topic := pubName,
                         converter := .image (env.framePfx ++ "_" ++ side ++ "_camera_optical_frame"),
                         calib := some ⟨monoNode.boardSocket, monoNode.resolutionWidth,
                                        monoNode.resolutionHeight⟩,
                         queueName := xo.streamName, label := side }],
        warnings := [] }
  else
    { handled := true, publishers := [], warnings := [.dontUnderstandStereo inputName] }

/-- The IMU overload of `mapKnownInputNodeType`. -/
def imuHandler (env : Env) (xo : DNode) : HandlerResult :=
  { handled := true,
    publishers := [{ topic := "imu",
                     converter := .imu (env.framePfx ++ "_imu_frame"),
                     calib := none,
                     queueName := xo.streamName, label := "imu" }],
    warnings := [] }

/-- The MonoCamera overload of `mapKnownInputNodeType`. -/
def monoHandler (env : Env) (xo cam : DNode) : HandlerResult :=
  let frame := env.frameNames cam.boardSocket
  { handled := true,
    publishers := [{ topic := frame ++ "/image",
                     converter := .image (env.framePfx ++ frame),
                     calib := some ⟨cam.boardSocket, cam.resolutionWidth, cam.resolutionHeight⟩,
                     queueName := xo.streamName,
                     label := "mono" ++ toString (socketVal cam.boardSocket) }],
    warnings := [] }

/-- The port-name → calibration-dimension selection in the ColorCamera
overload, together with the fallback warning. -/
def colorDims (cam : DNode) (inputName : String) : Nat × Nat × List Warn :=
  if inputName = "video" then (cam.videoWidth, cam.videoHeight, [])
  else if inputName = "still" then (cam.stillWidth, cam.stillHeight, [])
  else if inputName = "preview" then (cam.previewWidth, cam.previewHeight, [])
  else if inputName = "isp" then (cam.ispWidth, cam.ispHeight, [])
  else (1280, 720, [.dontUnderstandColor inputName])

/-- The ColorCamera overload of `mapKnownInputNodeType`. -/
def colorHandler (env : Env) (xo cam : DNode) (inputName : String) : HandlerResult :=
  let frame := env.frameNames cam.boardSocket
  let d := colorDims cam inputName
  { handled := true,
    publishers := [{ topic := "color/image",
                     converter := .image (env.framePfx ++ frame),
                     calib := some ⟨cam.boardSocket, d.1, d.2.1⟩,
                     queueName := xo.streamName, label := "color" }],
    warnings := d.2.2 }

/-- Dispatch of a successfully down-cast node to the overload for its kind. -/
def handlerFor (k : NodeKind) (env : Env) (p : Pipeline) (xo node : DNode)
    (inputName : String) : HandlerResult :=
  match k with
  | .ColorCamera => colorHandler env xo node inputName
  | .IMU => imuHandler env xo
  | .StereoDepth => stereoHandler env p xo node inputName
  | .MonoCamera => monoHandler env xo node
  | _ => { handled := false, publishers := [], warnings := [] }

/-- The variadic template `mapKnownInputNodeTypes<T, Args...>`: try the cast
for each kind in order; when a cast succeeds the overload runs, and its side
effects persist even if it were to return `false`, in which case the chain
continues with the remaining kinds; the base case returns `false`. -/
def mapKnownInputNodeTypes (env : Env) (p : Pipeline) (xo : DNode) (inputNode : Option DNode)
    (inputName : String) : List NodeKind → Bool × List Publisher × List Warn
  | [] => (false, [], [])
  | k :: rest =>
    match castK k inputNode with
    | some typed =>
      let r := handlerFor k env p xo typed inputName
      if r.handled then (true, r.publishers, r.warnings)
      else
        let res := mapKnownInputNodeTypes env p xo inputNode inputName rest
        (res.1, r.publishers ++ res.2.1, r.warnings ++ res.2.2)
    | none => mapKnownInputNodeTypes env p xo inputNode inputName rest

/-- The fixed candidate order used at the call site in `mapOutputStream`. -/
def priorityKinds : List NodeKind :=
  [.ColorCamera, .IMU, .StereoDepth, .MonoCamera]

/-- `mapOutputStream`: look up the producer node of the connection, run the
dispatch chain over the fixed kind list, and log the `could not generate
depthai publisher` warning when the chain returns `false`. -/
def mapOutputStream (env : Env) (p : Pipeline) (xo : DNode) (c : Connection) :
    List Publisher × List Warn :=
  let otherNode := getNode p c.outputId
  let r := mapKnownInputNodeTypes env p xo otherNode c.outputName priorityKinds
  if r.1 then (r.2.1, r.2.2) else (r.2.1, r.2.2 ++ [.couldNotGenerate])

/-- A fresh node id for `pipeline.create<dai::node::XLinkIn>()`: one larger
than every existing id. -/
def freshId (p : Pipeline) : Nat :=
  (p.nodes.map DNode.id).foldl max 0 + 1

/-- Insert a connection under a consumer key of the connection map. -/
def insertConn (conns : List (Nat × List Connection)) (key : Nat) (c : Connection) :
    List (Nat × List Connection) :=
  match conns with
  | [] => [(key, [c])]
  | e :: rest => if e.1 = key then (e.1, e.2 ++ [c]) :: rest else e :: insertConn rest key c

/-- Create an XLinkIn node with the given stream name and link its `out`
output to the named input of `target` (the body shared by the StereoDepth
branch of `addConfigNodes` and by `setupCameraControlQueue`). -/
def addConfigNode (p : Pipeline) (target : DNode) (portName streamNm : String) : Pipeline :=
  let nid := freshId p
  { nodes := p.nodes ++ [{ id := nid, kind := .XLinkIn, streamName := streamNm }],
    connections := insertConn p.connections target.id
      { outputId := nid, outputName := "out", inputId := target.id, inputName := portName } }

/-- `addConfigNodes`: StereoDepth gets an XLinkIn named `stereoConfig` linked
to `inputConfig`; Color/Mono cameras get an XLinkIn named
`<prefix><socket>_inputControl` linked to `inputControl`
(`setupCameraControlQueue`); every other kind is left alone. -/
def addConfigNodes (p : Pipeline) (n : DNode) : Pipeline :=
  match n.kind with
  | .StereoDepth => addConfigNode p n "inputConfig" "stereoConfig"
  | .ColorCamera =>
    addConfigNode p n "inputControl" ("rgb" ++ toString (socketVal n.boardSocket) ++ "_inputControl")
  | .MonoCamera =>
    addConfigNode p n "inputControl" ("mono" ++ toString (socketVal n.boardSocket) ++ "_inputControl")
  | _ => p

/-- A configuration server attached by `mapNode` (its callback behaviour is
modelled separately by `triggger_update` below); only the identity of the
server matters to the builder-level claims. -/
inductive ServerAction where
  | stereoServer (nodeId : Nat)
  | cameraServer (pfx : String) (socket : CameraBoardSocket)
  deriving DecidableEq, Repr

/-- `mapNode`: which configuration server (if any) is created for a node. -/
def mapNodeAction (n : DNode) : Option ServerAction :=
  match n.kind with
  | .StereoDepth => some (.stereoServer n.id)
  | .ColorCamera => some (.cameraServer "rgb" n.boardSocket)
  | .MonoCamera => some (.cameraServer "mono" n.boardSocket)
  | _ => none

/-- The inner loop of the publisher-attachment pass: `mapOutputStream` for
each connection into one XLinkOut node, in order.  Besides the publishers and
warnings it records the connections it ran on. -/
def processConns (env : Env) (p : Pipeline) (xo : DNode) :
    List Connection → List Publisher × List Warn × List Connection
  | [] => ([], [], [])
  | c :: rest =>
    let r := mapOutputStream env p xo c
    let t := processConns env p xo rest
    (r.1 ++ t.1, r.2 ++ t.2.1, c :: t.2.2)

/-- The outer loop of the publisher-attachment pass: for each entry of the
(snapshotted) connection map whose consumer node down-casts to XLinkOut, run
the inner loop. -/
def publisherPass (env : Env) (p : Pipeline) :
    List (Nat × List Connection) → List Publisher × List Warn × List Connection
  | [] => ([], [], [])
  | e :: rest =>
    let t := publisherPass env p rest
    match castK .XLinkOut (getNode p e.1) with
    | some xo =>
      let here := processConns env p xo e.2
      (here.1 ++ t.1, here.2.1 ++ t.2.1, here.2.2 ++ t.2.2)
    | none => t

/-- Device handle: the only attribute the builder reads is
`isPipelineRunning()`. -/
structure Device where
  running : Bool
  deriving DecidableEq, Repr

/-- Everything `BuildPublisherFromPipeline` does, as data: the final pipeline
(after any config-node injection), whether `startPipeline` was called, the
configuration servers attached, the publishers created, the warnings logged,
and the connections the publisher pass considered. -/
structure BuildResult where
  finalPipeline : Pipeline
  startedPipeline : Bool
  servers : List ServerAction
  publishers : List Publisher
  warnings : List Warn
  considered : List Connection
  deriving DecidableEq, Repr

/-- `BuildPublisherFromPipeline`: snapshot the connection map first; if the
device is not running, inject config nodes for every (pre-existing) node,
start the pipeline and attach config servers for every node of the updated
pipeline; otherwise only log a warning.  Either way, run the publisher pass
over the snapshot taken at entry. -/
def BuildPublisherFromPipeline (env : Env) (dev : Device) (p : Pipeline) : BuildResult :=
  let connections := p.connections
  if dev.running then
    let r := publisherPass env p connections
    { finalPipeline := p, startedPipeline := false, servers := [],
      publishers := r.1, warnings := .deviceRunning :: r.2.1, considered := r.2.2 }
  else
    let p1 := p.nodes.foldl addConfigNodes p
    let servers := p1.nodes.filterMap mapNodeAction
    let r := publisherPass env p1 connections
    { finalPipeline := p1, startedPipeline := true, servers := servers,
      publishers := r.1, warnings := r.2.1, considered := r.2.2 }

/-- The `CameraControlConfig` parameter record of the camera control server.
The region coordinates flow through the bounding-box callbacks as C++
`double`s; they are modelled as exact rationals, since the claims verified
here concern only which fields change, not rounding. -/
structure CameraControlConfig where
  autofocus_mode : Int := 0
  autofocus_startx : ℚ := 0
  autofocus_starty : ℚ := 0
  autofocus_width : ℚ := 0
  autofocus_height : ℚ := 0
  autofocus_min : Int := 0
  autofocus_max : Int := 0
  manual_focus : Int := 0
  autoexposure_lock : Bool := false
  autoexposure_startx : ℚ := 0
  autoexposure_starty : ℚ := 0
  autoexposure_width : ℚ := 0
  autoexposure_height : ℚ := 0
  autoexposure_compensation : Int := 0
  contrast : Int := 0
  brightness : Int := 0
  saturation : Int := 0
  sharpness : Int := 0
  chroma_denoise : Int := 0
  deriving DecidableEq, Repr

/-- One setter call on the `dai::CameraControl` object being assembled in the
`triggger_update` lambda, with the values it was passed. -/
inductive SetterCall where
  | startStreaming
  | autoFocusMode (m : Int)
  | autoFocusRegion (x y w h : ℚ)
  | autoFocusLensRange (mn mx : Int)
  | manualFocus (v : Int)
  | autoExposureLock (b : Bool)
  | autoExposureRegion (x y w h : ℚ)
  | autoExposureCompensation (v : Int)
  | contrastC (v : Int)
  | brightnessC (v : Int)
  | saturationC (v : Int)
  | sharpnessC (v : Int)
  | chromaDenoise (v : Int)
  deriving DecidableEq, Repr

/-- What one invocation of `triggger_update` does to the camera: the setter
calls applied to the control object, in program order, and how many
configuration objects are sent to the control queue. -/
structure TriggerResult where
  setters : List SetterCall
  sentConfigs : Nat
  deriving DecidableEq, Repr

/-- The `triggger_update` lambda of `setupCameraControlServer` (source
spelling kept): the guarded setter calls in source order, followed by exactly
one `configQueue->send(dcfg)`.  `level` is the 32-bit unsigned bitmask. -/
def triggger_update (cfg : CameraControlConfig) (level : Nat) : TriggerResult :=
  let s :=
    (if level = 4294967295 ∨ level &&& 7 ≠ 0 then [SetterCall.startStreaming] else [])
    ++ (if level &&& 1 ≠ 0 then [SetterCall.autoFocusMode cfg.autofocus_mode] else [])
    ++ (if level &&& 2 ≠ 0 then
          [SetterCall.autoFocusRegion cfg.autofocus_startx cfg.autofocus_starty
            cfg.autofocus_width cfg.autofocus_height] else [])
    ++ (if level &&& 2 ≠ 0 then
          [SetterCall.autoFocusLensRange cfg.autofocus_min cfg.autofocus_max] else [])
    ++ (if level &&& 4 ≠ 0 then [SetterCall.manualFocus cfg.manual_focus] else [])
    ++ (if level &&& 8 ≠ 0 then [SetterCall.autoExposureLock cfg.autoexposure_lock] else [])
    ++ (if level &&& 16 ≠ 0 then
          [SetterCall.autoExposureRegion cfg.autoexposure_startx cfg.autoexposure_starty
            cfg.autoexposure_width cfg.autoexposure_height] else [])
    ++ (if level &&& 32 ≠ 0 then
          [SetterCall.autoExposureCompensation cfg.autoexposure_compensation] else [])
    ++ (if level &&& 64 ≠ 0 then [SetterCall.contrastC cfg.contrast] else [])
    ++ (if level &&& 128 ≠ 0 then [SetterCall.brightnessC cfg.brightness] else [])
    ++ (if level &&& 256 ≠ 0 then [SetterCall.saturationC cfg.saturation] else [])
    ++ (if level &&& 512 ≠ 0 then [SetterCall.sharpnessC cfg.sharpness] else [])
    ++ (if level &&& 1024 ≠ 0 then [SetterCall.chromaDenoise cfg.chroma_denoise] else [])
  { setters := s, sentConfigs := 1 }

/-- The setter group actually controlled by bit `i` of the level bitmask (in
the code: bit 0 → auto-focus mode, bit 1 → auto-focus region and lens range,
…, bit 10 → chroma denoise). -/
def setterGroup (cfg : CameraControlConfig) : Nat → List SetterCall
  | 0 => [.autoFocusMode cfg.autofocus_mode]
  | 1 => [.autoFocusRegion cfg.autofocus_startx cfg.autofocus_starty
            cfg.autofocus_width cfg.autofocus_height,
          .autoFocusLensRange cfg.autofocus_min cfg.autofocus_max]
  | 2 => [.manualFocus cfg.manual_focus]
  | 3 => [.autoExposureLock cfg.autoexposure_lock]
  | 4 => [.autoExposureRegion cfg.autoexposure_startx cfg.autoexposure_starty
            cfg.autoexposure_width cfg.autoexposure_height]
  | 5 => [.autoExposureCompensation cfg.autoexposure_compensation]
  | 6 => [.contrastC cfg.contrast]
  | 7 => [.brightnessC cfg.brightness]
  | 8 => [.saturationC cfg.saturation]
  | 9 => [.sharpnessC cfg.sharpness]
  | 10 => [.chromaDenoise cfg.chroma_denoise]
  | _ => []

/-- Per-bit specification of the setter sequence: start-streaming whenever
`level` is `0xffffffff` or any of bits 0-2 is set, then the group of each set
bit among bits 0-10, in bit order. -/
def amendedSetters (cfg : CameraControlConfig) (level : Nat) : List SetterCall :=
  (if level = 4294967295 ∨ level &&& 7 ≠ 0 then [SetterCall.startStreaming] else [])
  ++ (List.range 11).foldr
      (fun i acc => (if level &&& 2 ^ i ≠ 0 then setterGroup cfg i else []) ++ acc) []

/-- A `vision_msgs::BoundingBox2D` message (doubles as exact rationals). -/
structure BBox where
  centerX : ℚ
  centerY : ℚ
  sizeX : ℚ
  sizeY : ℚ
  deriving DecidableEq, Repr

/-- The mutable state shared by one camera's control server: the retained
snapshot `*current_config`, the parameter server's stored configuration, and
the list of `triggger_update` invocations so far (each records the
configuration and level it was called with; each such call sends exactly one
config object, per `triggger_update` above). -/
structure ControlServerState where
  snapshot : CameraControlConfig
  serverStored : CameraControlConfig
  triggers : List (CameraControlConfig × Nat)
  deriving DecidableEq, Repr

/-- State effect of calling `triggger_update(cfg, level)`: the lambda assigns
`*current_config = cfg` and sends one config object. -/
def triggerState (st : ControlServerState) (cfg : CameraControlConfig) (level : Nat) :
    ControlServerState :=
  { st with snapshot := cfg, triggers := st.triggers ++ [(cfg, level)] }

/-- The `ae_bbox` subscription callback: write the four auto-exposure region
fields of `*current_config`, mirror the snapshot into the server with
`updateConfig`, then call `triggger_update(*current_config, 16)`. -/
def aeBboxCallback (st : ControlServerState) (bb : BBox) : ControlServerState :=
  let c1 := { st.snapshot with
              autoexposure_startx := bb.centerX - bb.sizeX / 2,
              autoexposure_starty := bb.centerY - bb.sizeY / 2,
              autoexposure_width := bb.sizeX,
              autoexposure_height := bb.sizeY }
  let st1 : ControlServerState := { st with snapshot := c1, serverStored := c1 }
  triggerState st1 c1 16

/-- The `af_bbox` subscription callback: write the four auto-focus region
fields of `*current_config`, mirror the snapshot into the server with
`updateConfig`, then call `triggger_update(*current_config, 2)`. -/
def afBboxCallback (st : ControlServerState) (bb : BBox) : ControlServerState :=
  let c1 := { st.snapshot with
              autofocus_startx := bb.centerX - bb.sizeX / 2,
              autofocus_starty := bb.centerY - bb.sizeY / 2,
              autofocus_width := bb.sizeX,
              autofocus_height := bb.sizeY }
  let st1 : ControlServerState := { st with snapshot := c1, serverStored := c1 }
  triggerState st1 c1 2

/-! ### Helper lemmas -/

theorem stereoHandler_handled (env : Env) (p : Pipeline) (xo st : DNode) (nm : String) :
    (stereoHandler env p xo st nm).handled = true := by
  unfold stereoHandler
  split_ifs <;> dsimp only [] <;>
    first
      | rfl
      | (cases findMonoForSide p st.id "left" <;> rfl)
      | (cases findMonoForSide p st.id "right" <;> rfl)

theorem handlerFor_handled (k : NodeKind) (env : Env) (p : Pipeline) (xo node : DNode)
    (nm : String) (hk : k ∈ priorityKinds) :
    (handlerFor k env p xo node nm).handled = true := by
  simp only [priorityKinds, List.mem_cons, List.not_mem_nil, or_false] at hk
  rcases hk with h | h | h | h <;> subst h <;>
    simp [handlerFor, colorHandler, imuHandler, monoHandler, stereoHandler_handled]

/-! ### Theorems for the stereo-depth stream handlers -/

/-- C8: the "disparity" port of a stereo-depth node yields exactly one
publisher, on topic "stereo/disparity", whose converter is the
disparity-specific converter built with the fixed optical constants 880
(focal-length equivalent), 7.5 (baseline), 20 (min range) and 2000 (max
range). -/
theorem stereo_disparity_publisher (env : Env) (p : Pipeline) (xo st : DNode) :
    stereoHandler env p xo st "disparity" =
      { handled := true,
        publishers := [{ topic := "stereo/disparity",
                         converter := .disparity
                           (env.framePfx ++ env.frameNames (resolveAlignSocket st))
                           880 (15/2) 20 2000,
                         calib := some ⟨resolveAlignSocket st, 1280, 720⟩,
                         queueName := xo.streamName, label := "stereo" }],
        warnings := [] } := by
  unfold stereoHandler
  simp

/-- C6: the "depth" and "confidenceMap" ports of a stereo-depth node each
yield exactly one publisher, on topic "stereo/depth" resp.
"stereo/confidenceMap", with an image converter on the resolved alignment
mount's frame and a calibration record computed at the fixed dimensions
1280×720; an automatic-alignment configuration resolves to the right mount. -/
theorem stereo_depth_confidence_publisher (env : Env) (p : Pipeline) (xo st : DNode)
    (nm : String) (hnm : nm = "depth" ∨ nm = "confidenceMap") :
    stereoHandler env p xo st nm =
      { handled := true,
        publishers := [{ topic := if nm = "depth" then "stereo/depth" else "stereo/confidenceMap",
                         converter := .image
                           (env.framePfx ++ env.frameNames (resolveAlignSocket st)),
                         calib := some ⟨resolveAlignSocket st, 1280, 720⟩,
                         queueName := xo.streamName, label := "stereo" }],
        warnings := [] } ∧
    (st.depthAlignCamera = .AUTO → resolveAlignSocket st = .RIGHT) := by
  constructor
  · rcases hnm with h | h <;> subst h <;> (unfold stereoHandler; simp)
  · intro h
    simp [resolveAlignSocket, h]

/-- C3: for the "rectifiedLeft"/"rectifiedRight"/"syncedLeft"/"syncedRight"
ports of a stereo-depth node, the side is derived from the port name, the
feeding mono camera is located by scanning the stereo node's inbound
connections for the input-port name equal to the side; if none is found the
handler warns, reports handled and creates no publisher; otherwise exactly
one publisher is created under "<side>/image_rect" (rectified) or
"<side>/image_raw" (synced) with calibration dimensions from that mono
camera's own reported resolution. -/
theorem stereo_rectified_synced_publisher (env : Env) (p : Pipeline) (xo st : DNode)
    (nm : String)
    (hnm : nm = "rectifiedLeft" ∨ nm = "rectifiedRight" ∨ nm = "syncedLeft" ∨ nm = "syncedRight") :
    (stereoHandler env p xo st nm).handled = true ∧
    (findMonoForSide p st.id
        (if nm = "rectifiedLeft" ∨ nm = "syncedLeft" then "left" else "right") = none →
      (stereoHandler env p xo st nm).publishers = [] ∧
      (stereoHandler env p xo st nm).warnings =
        [.noInputSource (if nm = "rectifiedLeft" ∨ nm = "syncedLeft" then "left" else "right")]) ∧
    (∀ m, findMonoForSide p st.id
        (if nm = "rectifiedLeft" ∨ nm = "syncedLeft" then "left" else "right") = some m →
      (stereoHandler env p xo st nm).warnings = [] ∧
      (stereoHandler env p xo st nm).publishers =
        [{ topic := (if nm = "rectifiedLeft" ∨ nm = "syncedLeft" then "left" else "right") ++
              (if nm = "rectifiedLeft" ∨ nm = "rectifiedRight" then "/image_rect" else "/image_raw"),
           converter := .image (env.framePfx ++ "_" ++
              (if nm = "rectifiedLeft" ∨ nm = "syncedLeft" then "left" else "right") ++
              "_camera_optical_frame"),
           calib := some ⟨m.boardSocket, m.resolutionWidth, m.resolutionHeight⟩,
           queueName := xo.streamName,
           label := if nm = "rectifiedLeft" ∨ nm = "syncedLeft" then "left" else "right" }]) := by
  refine ⟨stereoHandler_handled env p xo st nm, ?_, ?_⟩
  · intro hnone
    rcases hnm with h | h | h | h <;> subst h <;>
      (unfold stereoHandler; simp at hnone ⊢; rw [hnone]) <;> simp
  · intro m hsome
    rcases hnm with h | h | h | h <;> subst h <;>
      (unfold stereoHandler; simp at hsome ⊢; rw [hsome]) <;> simp

/-! ### Theorems for the camera stream handlers -/

/-- The color-camera publisher at given calibration dimensions. -/
def colorPublisherAt (env : Env) (xo cam : DNode) (w h : Nat) : Publisher :=
  { topic := "color/image",
    converter := .image (env.framePfx ++ env.frameNames cam.boardSocket),
    calib := some ⟨cam.boardSocket, w, h⟩,
    queueName := xo.streamName, label := "color" }

/-- C7: a color-camera node yields exactly one publisher under the fixed
topic "color/image"; its calibration dimensions are selected by port name
("video"/"still"/"preview"/"isp" use the corresponding reported dimensions,
anything else falls back to 1280×720 with a warning).  A mono-camera node
yields exactly one publisher under "<own-frame-name>/image" with the node's
own reported resolution. -/
theorem camera_topics_and_dims (env : Env) (xo cam : DNode) (nm : String) :
    monoHandler env xo cam =
      { handled := true,
        publishers := [{ topic := env.frameNames cam.boardSocket ++ "/image",
                         converter := .image (env.framePfx ++ env.frameNames cam.boardSocket),
                         calib := some ⟨cam.boardSocket, cam.resolutionWidth, cam.resolutionHeight⟩,
                         queueName := xo.streamName,
                         label := "mono" ++ toString (socketVal cam.boardSocket) }],
        warnings := [] } ∧
    (nm = "video" → colorHandler env xo cam nm =
      ⟨true, [colorPublisherAt env xo cam cam.videoWidth cam.videoHeight], []⟩) ∧
    (nm = "still" → colorHandler env xo cam nm =
      ⟨true, [colorPublisherAt env xo cam cam.stillWidth cam.stillHeight], []⟩) ∧
    (nm = "preview" → colorHandler env xo cam nm =
      ⟨true, [colorPublisherAt env xo cam cam.previewWidth cam.previewHeight], []⟩) ∧
    (nm = "isp" → colorHandler env xo cam nm =
      ⟨true, [colorPublisherAt env xo cam cam.ispWidth cam.ispHeight], []⟩) ∧
    (nm ≠ "video" → nm ≠ "still" → nm ≠ "preview" → nm ≠ "isp" →
      colorHandler env xo cam nm =
        ⟨true, [colorPublisherAt env xo cam 1280 720], [.dontUnderstandColor nm]⟩) := by
  refine ⟨rfl, ?_, ?_, ?_, ?_, ?_⟩
  · intro h; subst h; rfl
  · intro h; subst h; rfl
  · intro h; subst h; rfl
  · intro h; subst h; rfl
  · intro h1 h2 h3 h4
    unfold colorHandler colorDims colorPublisherAt
    simp [h1, h2, h3, h4]

/-! ### The dispatch chain -/

theorem dispatch_eq_of_kind (env : Env) (p : Pipeline) (xo node : DNode) (nm : String)
    (hk : node.kind ∈ priorityKinds) :
    mapKnownInputNodeTypes env p xo (some node) nm priorityKinds =
      (true, (handlerFor node.kind env p xo node nm).publishers,
             (handlerFor node.kind env p xo node nm).warnings) := by
  have hh := handlerFor_handled node.kind env p xo node nm hk
  simp only [priorityKinds, List.mem_cons, List.not_mem_nil, or_false] at hk
  rcases hk with h | h | h | h <;> rw [h] at hh <;>
    simp [mapKnownInputNodeTypes, castK, priorityKinds, h, hh]

theorem dispatch_false_of_kind_not_mem (env : Env) (p : Pipeline) (xo : DNode)
    (node? : Option DNode) (nm : String)
    (hk : ∀ node, node? = some node → node.kind ∉ priorityKinds) :
    mapKnownInputNodeTypes env p xo node? nm priorityKinds = (false, [], []) := by
  cases node? with
  | none => simp [mapKnownInputNodeTypes, castK, priorityKinds]
  | some node =>
    have := hk node rfl
    simp only [priorityKinds, List.mem_cons, List.not_mem_nil, or_false, not_or] at this
    obtain ⟨h1, h2, h3, h4⟩ := this
    simp [mapKnownInputNodeTypes, castK, priorityKinds, h1, h2, h3, h4]

/-- C1: `mapOutputStream` tries the candidate kinds in the fixed order
ColorCamera, IMU, StereoDepth, MonoCamera; when the producer node's runtime
kind matches a candidate, that kind's handler runs and its result is the
whole outcome (the handler reports handled even for a port name it does not
understand, so the chain stops there), and the "could not generate publisher"
warning is logged exactly when no candidate kind matches. -/
theorem dispatch_first_match_decides (env : Env) (p : Pipeline) (xo node : DNode)
    (c : Connection) (hc : getNode p c.outputId = some node) :
    priorityKinds = [.ColorCamera, .IMU, .StereoDepth, .MonoCamera] ∧
    (node.kind ∈ priorityKinds →
      (handlerFor node.kind env p xo node c.outputName).handled = true ∧
      mapOutputStream env p xo c =
        ((handlerFor node.kind env p xo node c.outputName).publishers,
         (handlerFor node.kind env p xo node c.outputName).warnings) ∧
      Warn.couldNotGenerate ∉ (mapOutputStream env p xo c).2) ∧
    (node.kind ∉ priorityKinds →
      mapOutputStream env p xo c = ([], [.couldNotGenerate])) := by
  refine ⟨rfl, ?_, ?_⟩
  · intro hk
    have hd := dispatch_eq_of_kind env p xo node c.outputName hk
    have hh := handlerFor_handled node.kind env p xo node c.outputName hk
    have hmo : mapOutputStream env p xo c =
        ((handlerFor node.kind env p xo node c.outputName).publishers,
         (handlerFor node.kind env p xo node c.outputName).warnings) := by
      unfold mapOutputStream
      rw [hc]
      dsimp only []
      rw [hd]
      rfl
    refine ⟨hh, hmo, ?_⟩
    rw [hmo]
    -- handlers never log the could-not-generate warning
    simp only [priorityKinds, List.mem_cons, List.not_mem_nil, or_false] at hk
    rcases hk with h | h | h | h <;> rw [h]
    · unfold handlerFor colorHandler colorDims
      split_ifs <;> simp
    · unfold handlerFor imuHandler
      simp
    · unfold handlerFor stereoHandler
      split_ifs <;> dsimp only []
      all_goals try (cases findMonoForSide p node.id "left")
      all_goals try (cases findMonoForSide p node.id "right")
      all_goals simp
    · unfold handlerFor monoHandler
      simp
  · intro hk
    have hd := dispatch_false_of_kind_not_mem env p xo (some node) c.outputName
      (by intro n hn; cases hn; exact hk)
    unfold mapOutputStream
    rw [hc]
    dsimp only []
    rw [hd]
    rfl

/-! ### The builder: membership lemmas for the publisher pass -/

theorem processConns_mem (env : Env) (p : Pipeline) (xo : DNode) (cs : List Connection)
    (c : Connection) (hc : c ∈ cs) :
    c ∈ (processConns env p xo cs).2.2 ∧
    ∀ pub ∈ (mapOutputStream env p xo c).1, pub ∈ (processConns env p xo cs).1 := by
  induction cs with
  | nil => cases hc
  | cons c0 rest ih =>
    rcases List.mem_cons.mp hc with h | h
    · subst h
      refine ⟨List.mem_cons_self _ _, ?_⟩
      intro pub hp
      exact List.mem_append.mpr (Or.inl hp)
    · obtain ⟨h1, h2⟩ := ih h
      refine ⟨List.mem_cons_of_mem _ h1, ?_⟩
      intro pub hp
      exact List.mem_append.mpr (Or.inr (h2 pub hp))

theorem publisherPass_mem (env : Env) (p : Pipeline)
    (conns : List (Nat × List Connection)) (e : Nat × List Connection) (he : e ∈ conns)
    (c : Connection) (hc : c ∈ e.2) (xo : DNode)
    (hxo : castK .XLinkOut (getNode p e.1) = some xo) :
    c ∈ (publisherPass env p conns).2.2 ∧
    ∀ pub ∈ (mapOutputStream env p xo c).1, pub ∈ (publisherPass env p conns).1 := by
  induction conns with
  | nil => cases he
  | cons e0 rest ih =>
    rcases List.mem_cons.mp he with h | h
    · subst h
      obtain ⟨h1, h2⟩ := processConns_mem env p xo e.2 c hc
      simp only [publisherPass, hxo]
      refine ⟨List.mem_append.mpr (Or.inl h1), ?_⟩
      intro pub hp
      exact List.mem_append.mpr (Or.inl (h2 pub hp))
    · obtain ⟨h1, h2⟩ := ih h
      simp only [publisherPass]
      cases hx : castK .XLinkOut (getNode p e0.1) with
      | none => exact ⟨h1, h2⟩
      | some xo0 =>
        refine ⟨List.mem_append.mpr (Or.inr h1), ?_⟩
        intro pub hp
        exact List.mem_append.mpr (Or.inr (h2 pub hp))

theorem processConns_considered (env : Env) (p : Pipeline) (xo : DNode)
    (cs : List Connection) : (processConns env p xo cs).2.2 = cs := by
  induction cs with
  | nil => rfl
  | cons c rest ih => simp [processConns, ih]

theorem publisherPass_considered_sub (env : Env) (p : Pipeline)
    (conns : List (Nat × List Connection)) (c : Connection)
    (hc : c ∈ (publisherPass env p conns).2.2) : ∃ e ∈ conns, c ∈ e.2 := by
  induction conns with
  | nil => cases hc
  | cons e0 rest ih =>
    simp only [publisherPass] at hc
    cases hx : castK .XLinkOut (getNode p e0.1) with
    | none =>
      rw [hx] at hc
      obtain ⟨e, he, hce⟩ := ih hc
      exact ⟨e, List.mem_cons_of_mem _ he, hce⟩
    | some xo =>
      rw [hx] at hc
      rcases List.mem_append.mp hc with h | h
      · rw [processConns_considered] at h
        exact ⟨e0, List.mem_cons_self _ _, h⟩
      · obtain ⟨e, he, hce⟩ := ih h
        exact ⟨e, List.mem_cons_of_mem _ he, hce⟩

/-- C2: when the device pipeline is already running, the builder injects no
configuration-input node (the pipeline is unchanged), does not start the
pipeline, creates no configuration server and logs the warning first — yet
still attaches the stream publishers for every connection of the connection
map whose consumer is an XLinkOut node. -/
theorem build_running_skips_config (env : Env) (dev : Device) (p : Pipeline)
    (hrun : dev.running = true) :
    (BuildPublisherFromPipeline env dev p).finalPipeline = p ∧
    (BuildPublisherFromPipeline env dev p).startedPipeline = false ∧
    (BuildPublisherFromPipeline env dev p).servers = [] ∧
    (BuildPublisherFromPipeline env dev p).warnings.head? = some .deviceRunning ∧
    (∀ e ∈ p.connections, ∀ c ∈ e.2, ∀ xo,
      castK .XLinkOut (getNode p e.1) = some xo →
      c ∈ (BuildPublisherFromPipeline env dev p).considered ∧
      ∀ pub ∈ (mapOutputStream env p xo c).1,
        pub ∈ (BuildPublisherFromPipeline env dev p).publishers) := by
  unfold BuildPublisherFromPipeline
  rw [hrun]
  refine ⟨rfl, rfl, rfl, rfl, ?_⟩
  intro e he c hc xo hxo
  simpa using publisherPass_mem env p p.connections e he c hc xo hxo

/-- Membership of a connection in a connection map. -/
def connMem (c : Connection) (conns : List (Nat × List Connection)) : Prop :=
  ∃ e ∈ conns, c ∈ e.2

instance (c : Connection) (conns : List (Nat × List Connection)) :
    Decidable (connMem c conns) := by
  unfold connMem
  infer_instance

/-- C10: the builder snapshots the connection map before injecting the
configuration-input nodes, so the publisher-attachment pass only ever
considers connections of the original map; a connection absent from the
original map — in particular any XLinkIn control link created by
`addConfigNodes` — is never considered for a stream publisher. -/
theorem considered_connections_preexisting (env : Env) (dev : Device) (p : Pipeline) :
    (∀ c ∈ (BuildPublisherFromPipeline env dev p).considered, connMem c p.connections) ∧
    (∀ c, ¬ connMem c p.connections →
      c ∉ (BuildPublisherFromPipeline env dev p).considered) := by
  have hmain : ∀ c ∈ (BuildPublisherFromPipeline env dev p).considered,
      connMem c p.connections := by
    intro c hc
    unfold BuildPublisherFromPipeline at hc
    by_cases hr : dev.running
    · rw [if_pos hr] at hc
      exact publisherPass_considered_sub env p p.connections c hc
    · rw [if_neg hr] at hc
      exact publisherPass_considered_sub env (p.nodes.foldl addConfigNodes p)
        p.connections c hc
  exact ⟨hmain, fun c hnc hc => hnc (hmain c hc)⟩

/-! ### The camera control server -/

/-- C4 counterexample: with only bit 0 of `level` set, `triggger_update`
applies two setter calls (start-streaming, because `level & 7` is non-zero,
and auto-focus mode for bit 0), not exactly one; and a level with only bit 11
set — where a 12-entry in-bit-order list ending in chroma denoise would put
the last group — applies no setter at all.  So the claimed "each set bit maps
to exactly one setter call, covering in bit order start-streaming, …, chroma
denoise" does not match the code. -/
theorem camera_control_level_counterexample :
    (triggger_update {} 1).setters = [.startStreaming, .autoFocusMode 0] ∧
    (triggger_update {} 1).setters.length = 2 ∧
    (triggger_update {} 2048).setters = [] := by
  refine ⟨rfl, rfl, rfl⟩

/-- C4 amended: bits 0-10 of `level` map, in bit order, to the setter groups
auto-focus mode; auto-focus region and lens range; manual focus;
auto-exposure lock; auto-exposure region; auto-exposure compensation;
contrast; brightness; saturation; sharpness; chroma denoise — and in
addition, a start-streaming call is made first whenever `level` is
`0xffffffff` or any of bits 0-2 is set; after the setters, exactly one
configuration object is sent to the control queue. -/
theorem camera_control_level_translation (cfg : CameraControlConfig) (level : Nat) :
    triggger_update cfg level =
      { setters := amendedSetters cfg level, sentConfigs := 1 } := by
  have hrange : List.range 11 = [0, 1, 2, 3, 4, 5, 6, 7, 8, 9, 10] := rfl
  unfold triggger_update amendedSetters
  rw [hrange]
  simp only [List.foldr_cons, List.foldr_nil, setterGroup]
  norm_num
  by_cases h2 : level &&& 2 = 0 <;> simp [h2, List.append_assoc]

/-- C5: each bounding-box callback updates exactly the four region fields of
its parameter group in the retained snapshot (all other fields unchanged),
mirrors the updated snapshot into the parameter server, and invokes the
translation path once with the synthetic bitmask of the affected group: 16
(the auto-exposure-region bit) for `ae_bbox`, 2 (the auto-focus-region bit)
for `af_bbox`. -/
theorem bbox_callbacks_update_region_fields (st : ControlServerState) (bb : BBox) :
    (aeBboxCallback st bb).snapshot.autoexposure_startx = bb.centerX - bb.sizeX / 2 ∧
    (aeBboxCallback st bb).snapshot.autoexposure_starty = bb.centerY - bb.sizeY / 2 ∧
    (aeBboxCallback st bb).snapshot.autoexposure_width = bb.sizeX ∧
    (aeBboxCallback st bb).snapshot.autoexposure_height = bb.sizeY ∧
    (aeBboxCallback st bb).snapshot.autofocus_mode = st.snapshot.autofocus_mode ∧
    (aeBboxCallback st bb).snapshot.autofocus_startx = st.snapshot.autofocus_startx ∧
    (aeBboxCallback st bb).snapshot.autofocus_starty = st.snapshot.autofocus_starty ∧
    (aeBboxCallback st bb).snapshot.autofocus_width = st.snapshot.autofocus_width ∧
    (aeBboxCallback st bb).snapshot.autofocus_height = st.snapshot.autofocus_height ∧
    (aeBboxCallback st bb).snapshot.autofocus_min = st.snapshot.autofocus_min ∧
    (aeBboxCallback st bb).snapshot.autofocus_max = st.snapshot.autofocus_max ∧
    (aeBboxCallback st bb).snapshot.manual_focus = st.snapshot.manual_focus ∧
    (aeBboxCallback st bb).snapshot.autoexposure_lock = st.snapshot.autoexposure_lock ∧
    (aeBboxCallback st bb).snapshot.autoexposure_compensation
      = st.snapshot.autoexposure_compensation ∧
    (aeBboxCallback st bb).snapshot.contrast = st.snapshot.contrast ∧
    (aeBboxCallback st bb).snapshot.brightness = st.snapshot.brightness ∧
    (aeBboxCallback st bb).snapshot.saturation = st.snapshot.saturation ∧
    (aeBboxCallback st bb).snapshot.sharpness = st.snapshot.sharpness ∧
    (aeBboxCallback st bb).snapshot.chroma_denoise = st.snapshot.chroma_denoise ∧
    (aeBboxCallback st bb).serverStored = (aeBboxCallback st bb).snapshot ∧
    (aeBboxCallback st bb).triggers
      = st.triggers ++ [((aeBboxCallback st bb).snapshot, 16)] ∧
    (afBboxCallback st bb).snapshot.autofocus_startx = bb.centerX - bb.sizeX / 2 ∧
    (afBboxCallback st bb).snapshot.autofocus_starty = bb.centerY - bb.sizeY / 2 ∧
    (afBboxCallback st bb).snapshot.autofocus_width = bb.sizeX ∧
    (afBboxCallback st bb).snapshot.autofocus_height = bb.sizeY ∧
    (afBboxCallback st bb).snapshot.autofocus_mode = st.snapshot.autofocus_mode ∧
    (afBboxCallback st bb).snapshot.autofocus_min = st.snapshot.autofocus_min ∧
    (afBboxCallback st bb).snapshot.autofocus_max = st.snapshot.autofocus_max ∧
    (afBboxCallback st bb).snapshot.manual_focus = st.snapshot.manual_focus ∧
    (afBboxCallback st bb).snapshot.autoexposure_lock = st.snapshot.autoexposure_lock ∧
    (afBboxCallback st bb).snapshot.autoexposure_startx = st.snapshot.autoexposure_startx ∧
    (afBboxCallback st bb).snapshot.autoexposure_starty = st.snapshot.autoexposure_starty ∧
    (afBboxCallback st bb).snapshot.autoexposure_width = st.snapshot.autoexposure_width ∧
    (afBboxCallback st bb).snapshot.autoexposure_height = st.snapshot.autoexposure_height ∧
    (afBboxCallback st bb).snapshot.autoexposure_compensation
      = st.snapshot.autoexposure_compensation ∧
    (afBboxCallback st bb).snapshot.contrast = st.snapshot.contrast ∧
    (afBboxCallback st bb).snapshot.brightness = st.snapshot.brightness ∧
    (afBboxCallback st bb).snapshot.saturation = st.snapshot.saturation ∧
    (afBboxCallback st bb).snapshot.sharpness = st.snapshot.sharpness ∧
    (afBboxCallback st bb).snapshot.chroma_denoise = st.snapshot.chroma_denoise ∧
    (afBboxCallback st bb).serverStored = (afBboxCallback st bb).snapshot ∧
    (afBboxCallback st bb).triggers
      = st.triggers ++ [((afBboxCallback st bb).snapshot, 2)] := by
  repeat' apply And.intro
  all_goals rfl

/-! ### Concrete fixtures used to instantiate the theorems -/

def wEnv : Env := { framePfx := "dai_x", frameNames := default_frame_mapping }

def wImu : DNode := { id := 1, kind := .IMU }

def wXo : DNode := { id := 2, kind := .XLinkOut, streamName := "imuStream" }

def wConn : Connection := { outputId := 1, outputName := "out", inputId := 2, inputName := "in" }

def wPipe : Pipeline := { nodes := [wImu, wXo], connections := [(2, [wConn])] }

def wMono : DNode :=
  { id := 3, kind := .MonoCamera, boardSocket := .LEFT,
    resolutionWidth := 640, resolutionHeight := 400 }

def wXo2 : DNode := { id := 4, kind := .XLinkOut, streamName := "leftStream" }

def wConn2 : Connection := { outputId := 3, outputName := "out", inputId := 4, inputName := "in" }

def wPipe2 : Pipeline := { nodes := [wMono, wXo2], connections := [(4, [wConn2])] }

def wStereo : DNode := { id := 5, kind := .StereoDepth }

def wMonoL : DNode :=
  { id := 6, kind := .MonoCamera, boardSocket := .LEFT,
    resolutionWidth := 640, resolutionHeight := 400 }

def wXo3 : DNode := { id := 7, kind := .XLinkOut, streamName := "rectStream" }

def wPipe3 : Pipeline :=
  { nodes := [wStereo, wMonoL, wXo3],
    connections :=
      [(5, [{ outputId := 6, outputName := "out", inputId := 5, inputName := "left" }]),
       (7, [{ outputId := 5, outputName := "rectifiedLeft", inputId := 7, inputName := "in" }])] }

def wColor : DNode :=
  { id := 8, kind := .ColorCamera, boardSocket := .RGB, ispWidth := 1920, ispHeight := 1080 }

def wXoC : DNode := { id := 9, kind := .XLinkOut, streamName := "colorStream" }

def wConnC : Connection := { outputId := 8, outputName := "isp", inputId := 9, inputName := "in" }

def wColorPipe : Pipeline := { nodes := [wColor, wXoC], connections := [(9, [wConnC])] }

/-- The XLinkIn control link that `addConfigNodes` injects into `wColorPipe`
(fresh node id 10, linked to the color camera's `inputControl`). -/
def wInjConn : Connection :=
  { outputId := 10, outputName := "out", inputId := 8, inputName := "inputControl" }

/-! ### Witnesses -/

/-- Witness for C1: on a concrete IMU producer, the dispatcher returns the
IMU handler's publisher. -/
theorem dispatch_first_match_witness :
    mapOutputStream wEnv wPipe wXo wConn =
      ([{ topic := "imu", converter := .imu "dai_x_imu_frame", calib := none,
          queueName := "imuStream", label := "imu" }], []) := by
  have h := (dispatch_first_match_decides wEnv wPipe wXo wImu wConn rfl).2.1 (by decide)
  rw [h.2.1]
  rfl

/-- Witness for C2: with the device already running, a concrete build keeps
the pipeline unchanged, starts nothing, attaches no server, and still
considers the mono camera's output connection. -/
theorem build_running_witness :
    (BuildPublisherFromPipeline wEnv ⟨true⟩ wPipe2).servers = [] ∧
    (BuildPublisherFromPipeline wEnv ⟨true⟩ wPipe2).startedPipeline = false ∧
    (BuildPublisherFromPipeline wEnv ⟨true⟩ wPipe2).finalPipeline = wPipe2 ∧
    wConn2 ∈ (BuildPublisherFromPipeline wEnv ⟨true⟩ wPipe2).considered := by
  have h := build_running_skips_config wEnv ⟨true⟩ wPipe2 rfl
  refine ⟨h.2.2.1, h.2.1, h.1, ?_⟩
  exact (h.2.2.2.2 (4, [wConn2]) (by decide) wConn2 (by decide) wXo2 (by decide)).1

/-- Witness for C3: a stereo node fed on its left input by a concrete mono
camera yields the one rectified-left publisher with that camera's
resolution. -/
theorem stereo_rectified_witness :
    (stereoHandler wEnv wPipe3 wXo3 wStereo "rectifiedLeft").publishers =
      [{ topic := "left/image_rect",
         converter := .image "dai_x_left_camera_optical_frame",
         calib := some ⟨.LEFT, 640, 400⟩,
         queueName := "rectStream", label := "left" }] := by
  have h := (stereo_rectified_synced_publisher wEnv wPipe3 wXo3 wStereo "rectifiedLeft"
      (Or.inl rfl)).2.2 wMonoL (by decide)
  rw [h.2]
  rfl

/-- Witness for C6: the "depth" port of a concrete auto-aligned stereo node
publishes on "stereo/depth" with the right mount's frame at 1280×720. -/
theorem stereo_depth_witness :
    stereoHandler wEnv wPipe3 wXo3 wStereo "depth" =
      { handled := true,
        publishers := [{ topic := "stereo/depth",
                         converter := .image "dai_xright_camera_optical_frame",
                         calib := some ⟨.RIGHT, 1280, 720⟩,
                         queueName := "rectStream", label := "stereo" }],
        warnings := [] } := by
  rw [(stereo_depth_confidence_publisher wEnv wPipe3 wXo3 wStereo "depth" (Or.inl rfl)).1]
  rfl

/-- Witness for C7: the "isp" port of a concrete color camera publishes on
"color/image" with the ISP dimensions. -/
theorem camera_topics_witness :
    colorHandler wEnv wXoC wColor "isp" =
      ⟨true, [colorPublisherAt wEnv wXoC wColor 1920 1080], []⟩ :=
  (camera_topics_and_dims wEnv wXoC wColor "isp").2.2.2.2.1 rfl

/-- Witness for C10: the control link injected into a concrete color-camera
pipeline appears in the final connection map but is never considered by the
publisher pass. -/
theorem considered_preexisting_witness :
    ¬ connMem wInjConn wColorPipe.connections ∧
    connMem wInjConn
      (BuildPublisherFromPipeline wEnv ⟨false⟩ wColorPipe).finalPipeline.connections ∧
    wInjConn ∉ (BuildPublisherFromPipeline wEnv ⟨false⟩ wColorPipe).considered := by
  refine ⟨by decide, by decide, ?_⟩
  exact (considered_connections_preexisting wEnv ⟨false⟩ wColorPipe).2 wInjConn (by decide)

end DepthaiBridge
